import Mathlib

set_option maxHeartbeats 1000000
set_option maxRecDepth 8000

/-!
Verification development for the face/hand-tracking avatar application
(src/main.js).  The signal-processing and gesture-recognition core is
shallowly embedded: numeric values are exact rationals, timestamps are
integers (milliseconds).  Rational division is total with x / 0 = 0.
-/

/-- A normalized 2D landmark point.  The embedded code paths read only the
x and y fields of MediaPipe landmark objects. -/
structure Point where
  x : ℚ
  y : ℚ
deriving Repr, DecidableEq

/-- A wrist history sample, with fields x, y, time as pushed by
HandTracker.detectWave (src/main.js line 399). -/
structure Sample where
  x : ℚ
  y : ℚ
  time : ℤ
deriving Repr, DecidableEq

/-- The hand landmarks read by the gesture recognizers: wrist = hand[0],
thumbTip = hand[4], thumbIp = hand[3], indexTip = hand[8],
middleTip = hand[12], ringTip = hand[16], pinkyTip = hand[20]
(src/main.js lines 396 and 456-462). -/
structure Hand where
  wrist : Point
  thumbTip : Point
  thumbIp : Point
  indexTip : Point
  middleTip : Point
  ringTip : Point
  pinkyTip : Point
deriving Repr, DecidableEq

/-- The mutable state of HandTracker relevant to the gesture recognizers
(src/main.js lines 330-341). -/
structure HandTrackerState where
  wristHistory : List Sample
  lastWaveTime : ℤ
  lastThumbsUpTime : ℤ
deriving Repr, DecidableEq

namespace HandTracker

/-- this.maxHistoryLength = 15 (src/main.js line 335). -/
def maxHistoryLength : Nat := 15

/-- this.gestureThrottle = 2000 milliseconds (src/main.js line 338). -/
def gestureThrottle : ℤ := 2000

/-- Fresh tracker state as set up by the constructor: empty history, both
gesture timestamps 0 (src/main.js lines 334-337). -/
def initState : HandTrackerState :=
  { wristHistory := [], lastWaveTime := 0, lastThumbsUpTime := 0 }

/-- Push a sample and FIFO-evict at capacity: this.wristHistory.push(...)
followed by shift() when the length exceeds maxHistoryLength
(src/main.js lines 399-402). -/
def fifoPush (hist : List Sample) (s : Sample) : List Sample :=
  let h := hist ++ [s]
  if maxHistoryLength < h.length then h.tail else h

/-- Sign of a horizontal delta: dx > 0 ? 1 : dx < 0 ? -1 : 0
(src/main.js line 418). -/
def sgn (q : ℚ) : ℤ :=
  if 0 < q then 1 else if q < 0 then -1 else 0

/-- The wave-detection loop over consecutive wrist samples (src/main.js
lines 408-423), carrying lastDirection, directionChanges and
maxVerticalChange through the history. -/
def waveLoop : Sample → ℤ → Nat → ℚ → List Sample → Nat × ℚ
  | _, _, directionChanges, maxVerticalChange, [] =>
      (directionChanges, maxVerticalChange)
  | prev, lastDirection, directionChanges, maxVerticalChange, cur :: rest =>
      let dx := cur.x - prev.x
      let dy := |cur.y - prev.y|
      let maxV := max maxVerticalChange dy
      let dir := sgn dx
      let changes :=
        if dir ≠ 0 ∧ dir ≠ lastDirection ∧ lastDirection ≠ 0
        then directionChanges + 1 else directionChanges
      waveLoop cur dir changes maxV rest

/-- directionChanges and maxVerticalChange as computed by detectWave's loop,
which starts at the first history sample with lastDirection = 0 and both
accumulators 0 (src/main.js lines 408-423). -/
def waveStats : List Sample → Nat × ℚ
  | [] => (0, 0)
  | h :: t => waveLoop h 0 0 0 t

/-- Horizontal range Math.max(...xValues) - Math.min(...xValues) over the
history (src/main.js lines 426-427). -/
def xRangeOf (hist : List Sample) : ℚ :=
  match hist.map Sample.x with
  | [] => 0
  | x :: xs => xs.foldl max x - xs.foldl min x

/-- HandTracker.detectWave (src/main.js lines 387-439).  The input models
this.lastResults: none for a null result or missing landmarks field, some
for the detected-hand list.  Returns the boolean result together with the
updated tracker state. -/
def detectWave (results : Option (List Hand)) (now : ℤ)
    (s : HandTrackerState) : Bool × HandTrackerState :=
  match results with
  | none => (false, s)
  | some [] => (false, s)
  | some (hand :: _) =>
    if now - s.lastWaveTime < gestureThrottle then (false, s)
    else
      let wrist := hand.wrist
      let hist := fifoPush s.wristHistory { x := wrist.x, y := wrist.y, time := now }
      if hist.length < 12 then (false, { s with wristHistory := hist })
      else
        let stats := waveStats hist
        let xRange := xRangeOf hist
        if 2 ≤ stats.1 ∧ 0.12 < xRange ∧ stats.2 < 0.12 then
          (true, { s with wristHistory := [], lastWaveTime := now })
        else
          (false, { s with wristHistory := hist })

/-- Consecutive-sample deltas (dx, |dy|) across a history. -/
def deltas (hist : List Sample) : List (ℚ × ℚ) :=
  List.zipWith (fun a b => (b.x - a.x, |b.y - a.y|)) hist hist.tail

/-- Direction signs of the consecutive deltas of a history. -/
def signsOf (hist : List Sample) : List ℤ :=
  (deltas hist).map (fun d => sgn d.1)

/-- Reversal count as the code computes it: a reversal is counted only when
the new direction and the immediately preceding direction are both non-zero
and differ (src/main.js lines 418-422; a zero delta resets lastDirection
to 0, so a reversal across a stationary step is not counted). -/
def countRevCode : List ℤ → Nat
  | [] => 0
  | [_] => 0
  | a :: b :: rest =>
      (if b ≠ 0 ∧ b ≠ a ∧ a ≠ 0 then 1 else 0) + countRevCode (b :: rest)

/-- Direction-reversal count of a wrist history, code semantics. -/
def revCountOf (hist : List Sample) : Nat :=
  countRevCode (signsOf hist)

/-- Maximum vertical delta between consecutive samples of a history. -/
def maxVerticalOf (hist : List Sample) : ℚ :=
  (deltas hist).foldl (fun m d => max m d.2) 0

/-- Reversal count as the specification words it: a reversal is counted when
the new direction is non-zero and differs from the last non-zero direction
seen so far.  This definition follows the spec text and is compared against
the code's counting. -/
def countRevSpecAux : ℤ → List ℤ → Nat
  | _, [] => 0
  | lastNz, d :: rest =>
      (if d ≠ 0 ∧ d ≠ lastNz ∧ lastNz ≠ 0 then 1 else 0) +
        countRevSpecAux (if d ≠ 0 then d else lastNz) rest

/-- Direction-reversal count of a wrist history, spec semantics. -/
def specRevCountOf (hist : List Sample) : Nat :=
  countRevSpecAux 0 (signsOf hist)

/-- Thumb-extended test: thumbTip.y < wrist.y && thumbTip.y < thumbIp.y
(src/main.js line 465). -/
def thumbExtended (h : Hand) : Prop :=
  h.thumbTip.y < h.wrist.y ∧ h.thumbTip.y < h.thumbIp.y

instance (h : Hand) : Decidable (thumbExtended h) := by
  unfold thumbExtended; infer_instance

/-- Curled-fingers test: every other fingertip satisfies
tip.y > wrist.y - 0.1 (strict, src/main.js lines 468-472). -/
def fingersCurled (h : Hand) : Prop :=
  h.wrist.y - 0.1 < h.indexTip.y ∧ h.wrist.y - 0.1 < h.middleTip.y ∧
    h.wrist.y - 0.1 < h.ringTip.y ∧ h.wrist.y - 0.1 < h.pinkyTip.y

instance (h : Hand) : Decidable (fingersCurled h) := by
  unfold fingersCurled; infer_instance

/-- Curled-fingers test as the claim words it, with non-strict
tip.y >= wrist.y - 0.1.  This definition follows the claim text and is
compared against the code's strict test. -/
def specFingersCurled (h : Hand) : Prop :=
  h.wrist.y - 0.1 ≤ h.indexTip.y ∧ h.wrist.y - 0.1 ≤ h.middleTip.y ∧
    h.wrist.y - 0.1 ≤ h.ringTip.y ∧ h.wrist.y - 0.1 ≤ h.pinkyTip.y

instance (h : Hand) : Decidable (specFingersCurled h) := by
  unfold specFingersCurled; infer_instance

/-- One hand passes the thumbs-up classification (src/main.js line 474). -/
def isThumbsUpHand (h : Hand) : Bool :=
  decide (thumbExtended h ∧ fingersCurled h)

/-- HandTracker.detectThumbsUp (src/main.js lines 446-481).  The for-of loop
returning true on the first passing hand is modelled by List.any. -/
def detectThumbsUp (results : Option (List Hand)) (now : ℤ)
    (s : HandTrackerState) : Bool × HandTrackerState :=
  match results with
  | none => (false, s)
  | some [] => (false, s)
  | some hands =>
    if now - s.lastThumbsUpTime < gestureThrottle then (false, s)
    else if hands.any isThumbsUpHand then
      (true, { s with lastThumbsUpTime := now })
    else (false, s)

/-- One gesture-processing tick as driven by the tracking loop
(src/main.js lines 1167-1181): detectWave then detectThumbsUp on the same
detector result and timestamp. -/
def gestureTick (s : HandTrackerState) (results : Option (List Hand))
    (now : ℤ) : (Bool × Bool) × HandTrackerState :=
  let w := detectWave results now s
  let u := detectThumbsUp results now w.2
  ((w.1, u.1), u.2)

/-- Run a sequence of gesture ticks, collecting the (wave, thumbsUp)
results of each tick. -/
def runGestures : HandTrackerState → List (Option (List Hand) × ℤ) →
    List (Bool × Bool) × HandTrackerState
  | s, [] => ([], s)
  | s, c :: rest =>
      let t := gestureTick s c.1 c.2
      let r := runGestures t.2 rest
      (t.1 :: r.1, r.2)

end HandTracker

/-- A JavaScript float as the embedded expression pipeline can store it: a
finite rational or the contagious NaN.  No +Infinity constructor is needed
in stored slots: the only unbounded intermediate, an eye-aspect ratio with
zero denominator and positive numerator, is mapped to openness 1 by the
ternary at src/main.js lines 576-577 before anything is stored. -/
inductive JsNum where
  | num (q : ℚ)
  | nan
deriving Repr, DecidableEq

namespace JsNum

/-- A stored JS number lies in the unit interval: it is a finite rational
between 0 and 1.  NaN never lies in the unit interval. -/
def memUnit : JsNum → Prop
  | num q => 0 ≤ q ∧ q ≤ 1
  | nan => False

instance (x : JsNum) : Decidable (memUnit x) :=
  match x with
  | num q => inferInstanceAs (Decidable (0 ≤ q ∧ q ≤ 1))
  | nan => inferInstanceAs (Decidable False)

/-- JS subtraction 1 - x: NaN propagates. -/
def oneMinus : JsNum → JsNum
  | num q => num (1 - q)
  | nan => nan

end JsNum

/-- The value of an eye-aspect-ratio computation under JS float division:
finite for a non-zero denominator, +Infinity for a positive numerator over
zero, NaN for 0 / 0. -/
inductive EARVal where
  | fin (q : ℚ)
  | posInf
  | nan
deriving Repr, DecidableEq

/-- A renderable mesh's morph machinery: morphTargetDictionary (name to
index) and morphTargetInfluences, each possibly absent (src/main.js
line 609 guards both).  Influence entries are JS numbers: a blink write can
deposit NaN. -/
structure Mesh where
  morphTargetDictionary : Option (List (String × Nat))
  morphTargetInfluences : Option (List JsNum)
deriving Repr, DecidableEq

/-- The mutable expression state of AvatarController (src/main.js lines
489-502): the head-bone handle (presence only; the rotation components are
written to the Three.js bone object, which no verified claim reads) and the
five smoothed expression scalars plus the morph meshes.  The two blink
channels are JS numbers because a 0 / 0 eye-aspect ratio feeds NaN into
them; the mouth, smile and brow channels only ever receive finite values
(their raw signals are clamped expressions whose single division has a
denominator bounded below by 0.001). -/
structure AvatarController where
  headBone : Option Unit
  smoothedBlinkLeft : JsNum
  smoothedBlinkRight : JsNum
  smoothedMouth : ℚ
  smoothedSmile : ℚ
  smoothedBrowRaise : ℚ
  morphMeshes : List Mesh
deriving Repr, DecidableEq

namespace AvatarController

/-- Constructor state (src/main.js lines 489-502): smoothedBlink left/right
start at 1, mouth/smile/brow at 0. -/
def mk0 (headBone : Option Unit) (meshes : List Mesh) : AvatarController :=
  { headBone := headBone, smoothedBlinkLeft := JsNum.num 1,
    smoothedBlinkRight := JsNum.num 1,
    smoothedMouth := 0, smoothedSmile := 0, smoothedBrowRaise := 0,
    morphMeshes := meshes }

/-- AvatarController.lerp (src/main.js lines 507-509). -/
def lerp (a b t : ℚ) : ℚ := a + (b - a) * t

/-- The per-channel smoothing factors applied at src/main.js lines 601-605:
blink left 0.3, blink right 0.3, mouth 0.25, smile 0.2, brow raise 0.2. -/
def smoothingAlphas : List ℚ := [0.3, 0.3, 0.25, 0.2, 0.2]

/-- Iterated exponential smoothing of one channel against a constant raw
value: one lerp step per update call. -/
def smoothIter (raw t s0 : ℚ) : Nat → ℚ
  | 0 => s0
  | n + 1 => lerp (smoothIter raw t s0 n) raw t

/-- The six landmarks of one eye as gathered at src/main.js lines 553-569. -/
structure EyeLandmarks where
  top : Point
  bottom : Point
  left : Point
  right : Point
  top2 : Point
  bottom2 : Point

/-- AvatarController.calculateEAR (src/main.js lines 514-521), with JS
float division semantics at the boundary.  The numerator
vertical1 + vertical2 is a sum of absolute values and hence non-negative,
so a zero denominator 2 * horizontal yields +Infinity when the numerator is
positive and NaN for 0 / 0; otherwise the ratio is finite. -/
def calculateEAR (e : EyeLandmarks) : EARVal :=
  let vertical := |e.top.y - e.bottom.y| + |e.top2.y - e.bottom2.y|
  let horizontal2 := 2 * |e.left.x - e.right.x|
  if horizontal2 = 0 then (if vertical = 0 then .nan else .posInf)
  else .fin (vertical / horizontal2)

/-- The EAR-to-openness mapping applied to each eye:
ear > 0.2 ? 1.0 : ear < 0.15 ? 0.0 : (ear - 0.15) / 0.05
(src/main.js lines 576-577, identical expression for both eyes). -/
def eyeOpenness (ear : ℚ) : ℚ :=
  if 0.2 < ear then 1 else if ear < 0.15 then 0 else (ear - 0.15) / 0.05

/-- The same ternary applied to the computed EAR value with JS float
semantics: a finite EAR goes through the ramp; an infinite EAR satisfies
ear > 0.2 and yields 1; a NaN EAR fails both comparisons and
(NaN - 0.15) / 0.05 stays NaN. -/
def eyeOpennessJs : EARVal → JsNum
  | .fin q => .num (eyeOpenness q)
  | .posInf => .num 1
  | .nan => .nan

/-- lerp on possibly-NaN inputs with JS float semantics: any NaN operand
makes the result NaN (the factor t is always a finite literal). -/
def lerpJs : JsNum → JsNum → ℚ → JsNum
  | .num a, .num b, t => .num (lerp a b t)
  | .num _, .nan, _ => .nan
  | .nan, _, _ => .nan

/-- Mouth height |mouthTop.y - mouthBottom.y| (src/main.js line 582). -/
def mouthHeightOf (mouthTop mouthBottom : Point) : ℚ :=
  |mouthTop.y - mouthBottom.y|

/-- Smile ratio mouthWidth / (mouthHeight + 0.001) (src/main.js line 589,
the epsilon guarding division by zero). -/
def smileRatioOf (mouthWidth mouthHeight : ℚ) : ℚ :=
  mouthWidth / (mouthHeight + 0.001)

/-- Smile value: smileRatio > 1.8 ? Math.min((smileRatio - 1.8) * 2, 1) : 0
(src/main.js line 590). -/
def smilingOf (r : ℚ) : ℚ :=
  if 1.8 < r then min ((r - 1.8) * 2) 1 else 0

/-- The face landmarks whose fields updateFromFaceData dereferences, with
their indices (src/main.js lines 530-597).  landmarks[152] (chin) is read
but its fields are never accessed, so its absence cannot throw and it does
not appear here. -/
structure FacePoints where
  noseTip : Point
  leftEye : Point
  rightEye : Point
  l159 : Point
  l145 : Point
  l133 : Point
  l158 : Point
  l153 : Point
  r386 : Point
  r374 : Point
  r362 : Point
  r385 : Point
  r380 : Point
  mouthTop : Point
  mouthBottom : Point
  mouthLeft : Point
  mouthRight : Point
  leftBrow : Point
  rightBrow : Point
deriving Repr, DecidableEq

/-- Gather every face landmark that updateFromFaceData dereferences.  A
none result models the TypeError that a truncated landmark array raises at
the first dereference of a missing entry (JS array indexing past the end
yields undefined, and reading .x or .y of undefined throws). -/
def readFacePoints (lm : List Point) : Option FacePoints :=
  match lm[1]?, lm[33]?, lm[263]? with
  | some noseTip, some leftEye, some rightEye =>
    match lm[159]?, lm[145]?, lm[133]?, lm[158]?, lm[153]? with
    | some l159, some l145, some l133, some l158, some l153 =>
      match lm[386]?, lm[374]?, lm[362]?, lm[385]?, lm[380]? with
      | some r386, some r374, some r362, some r385, some r380 =>
        match lm[13]?, lm[14]?, lm[61]?, lm[291]? with
        | some mouthTop, some mouthBottom, some mouthLeft, some mouthRight =>
          match lm[70]?, lm[300]? with
          | some leftBrow, some rightBrow =>
              some { noseTip := noseTip, leftEye := leftEye, rightEye := rightEye,
                     l159 := l159, l145 := l145, l133 := l133, l158 := l158, l153 := l153,
                     r386 := r386, r374 := r374, r362 := r362, r385 := r385, r380 := r380,
                     mouthTop := mouthTop, mouthBottom := mouthBottom,
                     mouthLeft := mouthLeft, mouthRight := mouthRight,
                     leftBrow := leftBrow, rightBrow := rightBrow }
          | _, _ => none
        | _, _, _, _ => none
      | _, _, _, _, _ => none
    | _, _, _, _, _ => none
  | _, _, _ => none

/-- The left-eye landmark object built at src/main.js lines 553-560. -/
def leftEyeSet (p : FacePoints) : EyeLandmarks :=
  ⟨p.l159, p.l145, p.leftEye, p.l133, p.l158, p.l153⟩

/-- The right-eye landmark object built at src/main.js lines 562-569. -/
def rightEyeSet (p : FacePoints) : EyeLandmarks :=
  ⟨p.r386, p.r374, p.r362, p.rightEye, p.r385, p.r380⟩

/-- Neither eye's EAR computation hits the 0 / 0 (NaN) case. -/
def earWellFormed (p : FacePoints) : Prop :=
  calculateEAR (leftEyeSet p) ≠ EARVal.nan ∧ calculateEAR (rightEyeSet p) ≠ EARVal.nan

instance (p : FacePoints) : Decidable (earWellFormed p) := by
  unfold earWellFormed; infer_instance

/-- A face-update input that cannot create a NaN: either nothing is
processed (absent array, or a truncated array that throws before the EAR
computation) or both eyes have a well-formed EAR. -/
def inputEarSafe : Option (List Point) → Prop
  | none => True
  | some lm =>
      match readFacePoints lm with
      | none => True
      | some p => earWellFormed p

/-- Alias name lists tried for each channel (src/main.js lines 612-666). -/
def leftBlinkNames : List String :=
  ["eyeBlinkLeft", "eyeBlink_L", "EyeBlinkLeft", "Eye_Blink_Left", "mouthClose"]

def rightBlinkNames : List String :=
  ["eyeBlinkRight", "eyeBlink_R", "EyeBlinkRight", "Eye_Blink_Right", "mouthClose"]

def mouthOpenNames : List String :=
  ["mouthOpen", "jawOpen", "MouthOpen", "Jaw_Open", "viseme_aa"]

def smileNames : List String :=
  ["mouthSmile", "viseme_aa", "mouthSmileLeft", "MouthSmile", "Smile"]

def browNames : List String :=
  ["browInnerUp", "browUp", "BrowInnerUp", "Brow_Up"]

/-- AvatarController.findMorphIndex (src/main.js lines 671-685): the first
alias present in the dictionary; none models the -1 return. -/
def findMorphIndex (dict : List (String × Nat)) : List String → Option Nat
  | [] => none
  | n :: rest =>
      match dict.lookup n with
      | some i => some i
      | none => findMorphIndex dict rest

/-- One write of the morph-application block: set influences[i] to v when
the channel resolved to an index (the idx >= 0 checks at src/main.js
lines 627-666). -/
def writeMorph (dict : List (String × Nat)) (names : List String) (v : JsNum)
    (infl : List JsNum) : List JsNum :=
  match findMorphIndex dict names with
  | some i => infl.set i v
  | none => infl

/-- The morph-target application for one mesh (src/main.js lines 608-668),
with the writes in source order. -/
def applyMorphs (blinkL blinkR : JsNum) (mouth smile brow : ℚ) (mesh : Mesh) : Mesh :=
  match mesh.morphTargetInfluences, mesh.morphTargetDictionary with
  | some infl, some dict =>
      let i1 := writeMorph dict leftBlinkNames (JsNum.oneMinus blinkL) infl
      let i2 := writeMorph dict rightBlinkNames (JsNum.oneMinus blinkR) i1
      let i3 := writeMorph dict mouthOpenNames (JsNum.num mouth) i2
      let i4 := writeMorph dict smileNames (JsNum.num (smile * 0.5)) i3
      let i5 := writeMorph dict browNames (JsNum.num (brow * 0.6)) i4
      { mesh with morphTargetInfluences := some i5 }
  | _, _ => mesh

/-- The geometry extraction, smoothing and morph application performed by
updateFromFaceData once every required landmark dereference has succeeded
(src/main.js lines 552-668).  The head-bone rotation writes (lines 536-550)
mutate only the Three.js bone object and are not part of this state. -/
def applyFaceGeometry (p : FacePoints) (c : AvatarController) : AvatarController :=
  let leftEAR := calculateEAR (leftEyeSet p)
  let rightEAR := calculateEAR (rightEyeSet p)
  let leftEyeOpen := eyeOpennessJs leftEAR
  let rightEyeOpen := eyeOpennessJs rightEAR
  let mouthHeight := mouthHeightOf p.mouthTop p.mouthBottom
  let mouthOpen := min (mouthHeight * 15) 1
  let mouthWidth := |p.mouthRight.x - p.mouthLeft.x|
  let smiling := smilingOf (smileRatioOf mouthWidth mouthHeight)
  let browRaise := (((p.leftEye.y - p.leftBrow.y) + (p.rightEye.y - p.rightBrow.y)) / 2 - 0.04) * 10
  let browRaiseNormalized := max 0 (min 1 browRaise)
  let blinkL := lerpJs c.smoothedBlinkLeft leftEyeOpen 0.3
  let blinkR := lerpJs c.smoothedBlinkRight rightEyeOpen 0.3
  let mouthS := lerp c.smoothedMouth mouthOpen 0.25
  let smileS := lerp c.smoothedSmile smiling 0.2
  let browS := lerp c.smoothedBrowRaise browRaiseNormalized 0.2
  { c with
    smoothedBlinkLeft := blinkL
    smoothedBlinkRight := blinkR
    smoothedMouth := mouthS
    smoothedSmile := smileS
    smoothedBrowRaise := browS
    morphMeshes := c.morphMeshes.map (applyMorphs blinkL blinkR mouthS smileS browS) }

/-- AvatarController.updateFromFaceData (src/main.js lines 526-669).  The
guard at line 527 returns early when the head bone or the landmark array is
absent.  Except.error carries the controller state at the moment the JS
code would throw a TypeError on a missing landmark index; no expression
state has been mutated at that point. -/
def updateFromFaceData (landmarks : Option (List Point)) (c : AvatarController) :
    Except AvatarController AvatarController :=
  match c.headBone, landmarks with
  | none, _ => .ok c
  | some _, none => .ok c
  | some _, some lm =>
      match readFacePoints lm with
      | none => .error c
      | some p => .ok (applyFaceGeometry p c)

/-- The controller state after a face-update call, whether or not the call
threw. -/
def faceStep (c : AvatarController) (landmarks : Option (List Point)) :
    AvatarController :=
  match updateFromFaceData landmarks c with
  | .ok d => d
  | .error d => d

/-- Run a sequence of face-update calls. -/
def runFaceUpdates (c : AvatarController) (inputs : List (Option (List Point))) :
    AvatarController :=
  inputs.foldl faceStep c

/-- The five scalars the morph block writes to resolved morph-target
influences (src/main.js lines 628, 631, 643, 655, 666). -/
def morphWriteValues (c : AvatarController) : List JsNum :=
  [JsNum.oneMinus c.smoothedBlinkLeft, JsNum.oneMinus c.smoothedBlinkRight,
   JsNum.num c.smoothedMouth, JsNum.num (c.smoothedSmile * 0.5),
   JsNum.num (c.smoothedBrowRaise * 0.6)]

/-- All five smoothed expression scalars lie in the unit interval; for the
blink channels this in particular rules out NaN. -/
def smoothedInUnit (c : AvatarController) : Prop :=
  JsNum.memUnit c.smoothedBlinkLeft ∧
  JsNum.memUnit c.smoothedBlinkRight ∧
  (0 ≤ c.smoothedMouth ∧ c.smoothedMouth ≤ 1) ∧
  (0 ≤ c.smoothedSmile ∧ c.smoothedSmile ≤ 1) ∧
  (0 ≤ c.smoothedBrowRaise ∧ c.smoothedBrowRaise ≤ 1)

instance (c : AvatarController) : Decidable (smoothedInUnit c) := by
  unfold smoothedInUnit; infer_instance

end AvatarController

/-- Eleven-sample wrist history alternating x between 0.3 and 0.5 on every
sample, at constant height 0.5. -/
def altHistory : List Sample :=
  [⟨0.3, 0.5, 0⟩, ⟨0.5, 0.5, 0⟩, ⟨0.3, 0.5, 0⟩, ⟨0.5, 0.5, 0⟩, ⟨0.3, 0.5, 0⟩,
   ⟨0.5, 0.5, 0⟩, ⟨0.3, 0.5, 0⟩, ⟨0.5, 0.5, 0⟩, ⟨0.3, 0.5, 0⟩, ⟨0.5, 0.5, 0⟩,
   ⟨0.3, 0.5, 0⟩]

/-- Tracker state one sample short of a firing wave. -/
def sReady : HandTrackerState := ⟨altHistory, 0, 0⟩

/-- A hand whose wrist sits at (0.5, 0.5). -/
def waveHand : Hand :=
  ⟨⟨0.5, 0.5⟩, ⟨0.5, 0.5⟩, ⟨0.5, 0.5⟩, ⟨0.5, 0.5⟩, ⟨0.5, 0.5⟩, ⟨0.5, 0.5⟩, ⟨0.5, 0.5⟩⟩

/-- Eleven-sample wrist history oscillating x through 0.3 and 0.5 but
pausing for one sample at each extreme, at constant height 0.5. -/
def stallHistory : List Sample :=
  [⟨0.3, 0.5, 0⟩, ⟨0.5, 0.5, 0⟩, ⟨0.5, 0.5, 0⟩, ⟨0.3, 0.5, 0⟩, ⟨0.3, 0.5, 0⟩,
   ⟨0.5, 0.5, 0⟩, ⟨0.5, 0.5, 0⟩, ⟨0.3, 0.5, 0⟩, ⟨0.3, 0.5, 0⟩, ⟨0.5, 0.5, 0⟩,
   ⟨0.5, 0.5, 0⟩]

/-- Tracker state holding the pausing oscillation history. -/
def sStall : HandTrackerState := ⟨stallHistory, 0, 0⟩

/-- A hand whose wrist sits at (0.3, 0.5). -/
def stallHand : Hand :=
  ⟨⟨0.3, 0.5⟩, ⟨0.3, 0.5⟩, ⟨0.3, 0.5⟩, ⟨0.3, 0.5⟩, ⟨0.3, 0.5⟩, ⟨0.3, 0.5⟩, ⟨0.3, 0.5⟩⟩

/-- Tracker state whose last wave fired at time 1000. -/
def sCooling : HandTrackerState := ⟨[], 1000, 0⟩

/-- The spec's example thumbs-up hand: thumbTip.y = wrist.y - 0.2,
thumbIp.y = wrist.y - 0.1, all four other fingertips at wrist.y + 0.05. -/
def exampleThumbHand : Hand :=
  ⟨⟨0.5, 0.5⟩, ⟨0.5, 0.3⟩, ⟨0.5, 0.4⟩, ⟨0.5, 0.55⟩, ⟨0.5, 0.55⟩, ⟨0.5, 0.55⟩, ⟨0.5, 0.55⟩⟩

/-- The same hand with thumbTip.y = wrist.y + 0.1 (thumb not extended). -/
def exampleThumbHandB : Hand :=
  ⟨⟨0.5, 0.5⟩, ⟨0.5, 0.6⟩, ⟨0.5, 0.4⟩, ⟨0.5, 0.55⟩, ⟨0.5, 0.55⟩, ⟨0.5, 0.55⟩, ⟨0.5, 0.55⟩⟩

/-- A hand whose four non-thumb fingertips sit exactly at wrist.y - 0.1,
with the thumb extended. -/
def eqHand : Hand :=
  ⟨⟨0.5, 0.5⟩, ⟨0.5, 0.3⟩, ⟨0.5, 0.4⟩, ⟨0.5, 0.4⟩, ⟨0.5, 0.4⟩, ⟨0.5, 0.4⟩, ⟨0.5, 0.4⟩⟩

/-- Two gesture ticks 1000 ms apart, each seeing one hand. -/
def demoCalls : List (Option (List Hand) × ℤ) :=
  [(some [waveHand], 5000), (some [waveHand], 6000)]

/-- A truncated face landmark array (100 entries out of 468). -/
def shortFace : List Point := List.replicate 100 ⟨0, 0⟩

/-- A face landmark array long enough for every index the update reads. -/
def fullFace : List Point := List.replicate 400 ⟨0, 0⟩

/-- A controller with a head bone and no morph meshes. -/
def ctrlWithBone : AvatarController := AvatarController.mk0 (some ()) []

/-- A controller for an avatar in which no head bone was discovered. -/
def ctrlNoBone : AvatarController := AvatarController.mk0 none []


namespace AvatarController

/-- One smoothing step from a value below the raw target stays between the
current value and the target. -/
theorem lerp_step_le {t s r : ℚ} (h0 : 0 < t) (h1 : t ≤ 1) (h : s ≤ r) :
    s ≤ lerp s r t ∧ lerp s r t ≤ r := by
  unfold lerp
  constructor
  · nlinarith [mul_nonneg (sub_nonneg.mpr h) h0.le]
  · nlinarith [mul_le_mul_of_nonneg_left h1 (sub_nonneg.mpr h)]

/-- One smoothing step from a value above the raw target stays between the
target and the current value. -/
theorem lerp_step_ge {t s r : ℚ} (h0 : 0 < t) (h1 : t ≤ 1) (h : r ≤ s) :
    r ≤ lerp s r t ∧ lerp s r t ≤ s := by
  unfold lerp
  constructor
  · nlinarith [mul_le_mul_of_nonneg_left h1 (sub_nonneg.mpr h)]
  · nlinarith [mul_nonneg (sub_nonneg.mpr h) h0.le]

/-- Iterated smoothing from below never exceeds the raw target. -/
theorem smoothIter_le_raw (r t s : ℚ) (h0 : 0 < t) (h1 : t ≤ 1) (h : s ≤ r) :
    ∀ n, smoothIter r t s n ≤ r := by
  intro n
  induction n with
  | zero => exact h
  | succ n ih => exact (lerp_step_le h0 h1 ih).2

/-- Iterated smoothing from above never drops below the raw target. -/
theorem smoothIter_ge_raw (r t s : ℚ) (h0 : 0 < t) (h1 : t ≤ 1) (h : r ≤ s) :
    ∀ n, r ≤ smoothIter r t s n := by
  intro n
  induction n with
  | zero => exact h
  | succ n ih => exact (lerp_step_ge h0 h1 ih).1

end AvatarController

open HandTracker AvatarController in
/-- C1: every per-channel smoothing factor of src/main.js lines 601-605 lies
in (0,1], and for any factor in (0,1] with a constant raw input, each update
of the exponential smoother moves the smoothed value monotonically toward
the raw value and never past it (no overshoot). -/
theorem claim_C1_smoothing_monotone_no_overshoot
    (t s r : ℚ) (h0 : 0 < t) (h1 : t ≤ 1) (n : Nat) :
    (∀ a ∈ smoothingAlphas, 0 < a ∧ a ≤ 1) ∧
    (s ≤ r → smoothIter r t s n ≤ smoothIter r t s (n + 1) ∧
      smoothIter r t s (n + 1) ≤ r) ∧
    (r ≤ s → smoothIter r t s (n + 1) ≤ smoothIter r t s n ∧
      r ≤ smoothIter r t s (n + 1)) := by
  refine ⟨?_, ?_, ?_⟩
  · intro a ha
    simp only [smoothingAlphas, List.mem_cons, List.not_mem_nil, or_false] at ha
    rcases ha with rfl | rfl | rfl | rfl | rfl <;> norm_num
  · intro h
    have hn := smoothIter_le_raw r t s h0 h1 h n
    exact ⟨(lerp_step_le h0 h1 hn).1, (lerp_step_le h0 h1 hn).2⟩
  · intro h
    have hn := smoothIter_ge_raw r t s h0 h1 h n
    exact ⟨(lerp_step_ge h0 h1 hn).2, (lerp_step_ge h0 h1 hn).1⟩

open AvatarController in
/-- Witness for C1 at the blink channel factor 0.3 with s = 0, r = 1, n = 0. -/
theorem claim_C1_witness :
    (∀ a ∈ smoothingAlphas, 0 < a ∧ a ≤ 1) ∧
    ((0:ℚ) ≤ 1 → smoothIter 1 0.3 0 0 ≤ smoothIter 1 0.3 0 (0 + 1) ∧
      smoothIter 1 0.3 0 (0 + 1) ≤ 1) ∧
    ((1:ℚ) ≤ 0 → smoothIter 1 0.3 0 (0 + 1) ≤ smoothIter 1 0.3 0 0 ∧
      (1:ℚ) ≤ smoothIter 1 0.3 0 (0 + 1)) :=
  claim_C1_smoothing_monotone_no_overshoot 0.3 0 1 (by norm_num) (by norm_num) 0

open AvatarController in
/-- C4: the EAR-to-openness mapping is 0 below the closed threshold 0.15,
1 above the open threshold 0.2, and strictly increasing on the interval in
between. -/
theorem claim_C4_eye_openness_ramp :
    (∀ ear : ℚ, ear < 0.15 → eyeOpenness ear = 0) ∧
    (∀ ear : ℚ, 0.2 < ear → eyeOpenness ear = 1) ∧
    (∀ e1 e2 : ℚ, 0.15 ≤ e1 → e1 < e2 → e2 ≤ 0.2 →
      eyeOpenness e1 < eyeOpenness e2) := by
  refine ⟨?_, ?_, ?_⟩
  · intro ear h
    rw [eyeOpenness, if_neg (by linarith), if_pos h]
  · intro ear h
    rw [eyeOpenness, if_pos h]
  · intro e1 e2 h1 h12 h2
    rw [eyeOpenness, if_neg (by linarith), if_neg (by linarith),
        eyeOpenness, if_neg (by linarith), if_neg (by linarith)]
    have h5 : (0:ℚ) < 0.05 := by norm_num
    exact (div_lt_div_iff_of_pos_right h5).mpr (by linarith)

open AvatarController in
/-- Witness for C4 at EAR values 0.1, 0.25 and the ramp pair 0.16 < 0.19. -/
theorem claim_C4_witness :
    eyeOpenness 0.1 = 0 ∧ eyeOpenness 0.25 = 1 ∧
    eyeOpenness 0.16 < eyeOpenness 0.19 :=
  ⟨claim_C4_eye_openness_ramp.1 0.1 (by norm_num),
   claim_C4_eye_openness_ramp.2.1 0.25 (by norm_num),
   claim_C4_eye_openness_ramp.2.2 0.16 0.19 (by norm_num) (by norm_num) (by norm_num)⟩

namespace AvatarController

/-- The smile value always lies in the unit interval. -/
theorem smilingOf_mem (r : ℚ) : 0 ≤ smilingOf r ∧ smilingOf r ≤ 1 := by
  unfold smilingOf
  split_ifs with h
  · exact ⟨le_min (by linarith) (by norm_num), min_le_right _ _⟩
  · norm_num

end AvatarController

open AvatarController in
/-- C8: for any mouth landmarks (including mouth height exactly 0) the
smile-ratio denominator is strictly positive, a ratio at or below the 1.8
threshold yields smile 0, and the smile value always lands in the unit
interval. -/
theorem claim_C8_smile_guarded (mt mb ml mr : Point) :
    0 < mouthHeightOf mt mb + 0.001 ∧
    (smileRatioOf |mr.x - ml.x| (mouthHeightOf mt mb) ≤ 1.8 →
      smilingOf (smileRatioOf |mr.x - ml.x| (mouthHeightOf mt mb)) = 0) ∧
    0 ≤ smilingOf (smileRatioOf |mr.x - ml.x| (mouthHeightOf mt mb)) ∧
    smilingOf (smileRatioOf |mr.x - ml.x| (mouthHeightOf mt mb)) ≤ 1 := by
  have h0 : 0 ≤ mouthHeightOf mt mb := abs_nonneg _
  refine ⟨by linarith, ?_, (smilingOf_mem _).1, (smilingOf_mem _).2⟩
  intro hle
  rw [smilingOf, if_neg (by linarith)]

open AvatarController in
/-- Witness for C8 at four coincident mouth landmarks, where the mouth
height is exactly 0. -/
theorem claim_C8_witness :
    smilingOf (smileRatioOf |(⟨0,0⟩ : Point).x - (⟨0,0⟩ : Point).x|
      (mouthHeightOf ⟨0,0⟩ ⟨0,0⟩)) = 0 :=
  (claim_C8_smile_guarded ⟨0,0⟩ ⟨0,0⟩ ⟨0,0⟩ ⟨0,0⟩).2.1
    (by norm_num [smileRatioOf, mouthHeightOf])

open AvatarController in
/-- C10: when the controller holds no head bone, a face update is a complete
no-op regardless of the landmark input: no state change and no morph write. -/
theorem claim_C10_no_headbone_noop (c : AvatarController)
    (landmarks : Option (List Point)) (h : c.headBone = none) :
    updateFromFaceData landmarks c = .ok c := by
  unfold updateFromFaceData
  rw [h]

open AvatarController in
/-- Witness for C10: a boneless controller ignores a full landmark array. -/
theorem claim_C10_witness :
    updateFromFaceData (some fullFace) ctrlNoBone = .ok ctrlNoBone :=
  claim_C10_no_headbone_noop ctrlNoBone (some fullFace) rfl

namespace HandTracker

/-- The boolean result of detectThumbsUp on a hand list: the cooldown test
conjoined with the per-hand classification. -/
theorem detectThumbsUp_fst_eq (hands : List Hand) (now : ℤ) (s : HandTrackerState) :
    (detectThumbsUp (some hands) now s).1 =
      (decide (gestureThrottle ≤ now - s.lastThumbsUpTime) && hands.any isThumbsUpHand) := by
  cases hands with
  | nil => simp [detectThumbsUp]
  | cons h t =>
    have hstep : detectThumbsUp (some (h :: t)) now s =
        if now - s.lastThumbsUpTime < gestureThrottle then (false, s)
        else if (h :: t).any isThumbsUpHand then
          (true, { s with lastThumbsUpTime := now })
        else (false, s) := rfl
    rw [hstep]
    by_cases hc : now - s.lastThumbsUpTime < gestureThrottle
    · rw [if_pos hc]
      simp [decide_eq_false (not_le.mpr hc)]
    · rw [if_neg hc]
      rw [decide_eq_true (not_lt.mp hc), Bool.true_and]
      cases han : (h :: t).any isThumbsUpHand <;> simp [han]

end HandTracker

open HandTracker in
/-- Counterexample to C5 as stated: a hand whose four non-thumb fingertips
sit exactly at wrist.y - 0.1 satisfies the claim's non-strict curled test
(and the thumb test), yet outside the cooldown window the code does not
fire, because the code's curled test is strict. -/
theorem claim_C5_counterexample :
    thumbExtended eqHand ∧ specFingersCurled eqHand ∧
    gestureThrottle ≤ 5000 - initState.lastThumbsUpTime ∧
    (detectThumbsUp (some [eqHand]) 5000 initState).1 = false := by
  refine ⟨?_, ?_, ?_, ?_⟩ <;>
    norm_num [thumbExtended, specFingersCurled, eqHand, gestureThrottle, initState,
      detectThumbsUp, isThumbsUpHand, fingersCurled]

open HandTracker in
/-- C5 amended: on a single tick outside the cooldown window the thumbs-up
recognizer fires exactly when some detected hand passes the thumb-extended
test and the strict curled test (each fingertip strictly above
wrist.y - 0.1), it consults no history beyond the cooldown timestamp, the
spec's example hand fires, and the same hand with the thumb not extended
does not. -/
theorem claim_C5_amended_thumbs_up (s : HandTrackerState) (now : ℤ)
    (hands : List Hand) (hcool : gestureThrottle ≤ now - s.lastThumbsUpTime) :
    ((detectThumbsUp (some hands) now s).1 = true ↔
      ∃ h ∈ hands, thumbExtended h ∧ fingersCurled h) ∧
    (∀ s2 : HandTrackerState, s2.lastThumbsUpTime = s.lastThumbsUpTime →
      (detectThumbsUp (some hands) now s2).1 = (detectThumbsUp (some hands) now s).1) ∧
    (detectThumbsUp (some [exampleThumbHand]) 5000 initState).1 = true ∧
    (detectThumbsUp (some [exampleThumbHandB]) 5000 initState).1 = false := by
  refine ⟨?_, ?_, ?_, ?_⟩
  · simp [detectThumbsUp_fst_eq, decide_eq_true hcool, List.any_eq_true, isThumbsUpHand]
  · intro s2 h2
    rw [detectThumbsUp_fst_eq, detectThumbsUp_fst_eq, h2]
  · norm_num [detectThumbsUp, initState, gestureThrottle, isThumbsUpHand,
      thumbExtended, fingersCurled, exampleThumbHand]
  · norm_num [detectThumbsUp, initState, gestureThrottle, isThumbsUpHand,
      thumbExtended, fingersCurled, exampleThumbHandB]

open HandTracker in
/-- Witness for C5 amended: the spec's two example hands, evaluated from the
fresh tracker state at time 5000. -/
theorem claim_C5_witness :
    (detectThumbsUp (some [exampleThumbHand]) 5000 initState).1 = true ∧
    (detectThumbsUp (some [exampleThumbHandB]) 5000 initState).1 = false :=
  ⟨(claim_C5_amended_thumbs_up initState 5000 [exampleThumbHand]
      (by norm_num [gestureThrottle, initState])).2.2.1,
   (claim_C5_amended_thumbs_up initState 5000 [exampleThumbHandB]
      (by norm_num [gestureThrottle, initState])).2.2.2⟩

open HandTracker in
/-- Counterexample to C6 as stated: during the cooldown window a tick with
one detected hand appends nothing (the state is returned unchanged with its
empty history), because the cooldown check precedes the history push. -/
theorem claim_C6_counterexample :
    (detectWave (some [stallHand]) 1500 sCooling).1 = false ∧
    (detectWave (some [stallHand]) 1500 sCooling).2 = sCooling ∧
    sCooling.wristHistory = [] := by
  refine ⟨?_, ?_, rfl⟩ <;> norm_num [detectWave, sCooling, gestureThrottle]

open HandTracker in
/-- C6 amended: on a wave tick with at least one hand outside the cooldown
window, the wrist sample is FIFO-appended (and the history cleared when the
wave fires); a post-append length below 12 reports not-detected; ticks
during the cooldown window or with an empty detection list leave the state
unchanged and report not-detected. -/
theorem claim_C6_amended_history_append (s : HandTrackerState) (hand : Hand)
    (rest : List Hand) (now : ℤ) :
    (gestureThrottle ≤ now - s.lastWaveTime →
      ((detectWave (some (hand :: rest)) now s).2.wristHistory =
        if (detectWave (some (hand :: rest)) now s).1 then []
        else fifoPush s.wristHistory ⟨hand.wrist.x, hand.wrist.y, now⟩) ∧
      ((fifoPush s.wristHistory ⟨hand.wrist.x, hand.wrist.y, now⟩).length < 12 →
        (detectWave (some (hand :: rest)) now s).1 = false)) ∧
    (now - s.lastWaveTime < gestureThrottle →
      detectWave (some (hand :: rest)) now s = (false, s)) ∧
    detectWave (some []) now s = (false, s) ∧
    detectWave none now s = (false, s) := by
  refine ⟨?_, ?_, rfl, rfl⟩
  · intro hcool
    have hnc : ¬(now - s.lastWaveTime < gestureThrottle) := not_lt.mpr hcool
    constructor
    · simp only [detectWave, if_neg hnc]
      by_cases hlen :
          (fifoPush s.wristHistory ⟨hand.wrist.x, hand.wrist.y, now⟩).length < 12
      · simp only [if_pos hlen]
        simp
      · simp only [if_neg hlen]
        by_cases hfire :
            2 ≤ (waveStats (fifoPush s.wristHistory ⟨hand.wrist.x, hand.wrist.y, now⟩)).1 ∧
              0.12 < xRangeOf (fifoPush s.wristHistory ⟨hand.wrist.x, hand.wrist.y, now⟩) ∧
              (waveStats (fifoPush s.wristHistory ⟨hand.wrist.x, hand.wrist.y, now⟩)).2 < 0.12
        · simp only [if_pos hfire]
          simp
        · simp only [if_neg hfire]
          simp
    · intro hlen
      simp only [detectWave, if_neg hnc, if_pos hlen]
  · intro hc
    simp only [detectWave, if_pos hc]

open HandTracker in
/-- Witness for C6 amended: a fresh tracker at time 5000 with one hand is
outside the cooldown window and its one-sample history reports
not-detected. -/
theorem claim_C6_witness :
    (detectWave (some [stallHand]) 5000 initState).1 = false :=
  ((claim_C6_amended_history_append initState stallHand [] 5000).1
    (by norm_num [gestureThrottle, initState])).2
    (by norm_num [fifoPush, initState, maxHistoryLength])

namespace HandTracker

theorem deltas_cons (a b : Sample) (t : List Sample) :
    deltas (a :: b :: t) = (b.x - a.x, |b.y - a.y|) :: deltas (b :: t) := rfl

theorem signsOf_cons (a b : Sample) (t : List Sample) :
    signsOf (a :: b :: t) = sgn (b.x - a.x) :: signsOf (b :: t) := rfl

/-- A leading zero direction can never contribute a reversal. -/
theorem countRevCode_cons_zero (l : List ℤ) :
    countRevCode (0 :: l) = countRevCode l := by
  cases l with
  | nil => rfl
  | cons b t => simp [countRevCode]

/-- The loop's running directionChanges equals the count of adjacent
opposite non-zero direction pairs, seeded with the incoming lastDirection. -/
theorem waveLoop_fst (t : List Sample) : ∀ (prev : Sample) (ld : ℤ) (ch : Nat) (mv : ℚ),
    (waveLoop prev ld ch mv t).1 = ch + countRevCode (ld :: signsOf (prev :: t)) := by
  induction t with
  | nil =>
    intro prev ld ch mv
    simp [waveLoop, signsOf, deltas, countRevCode]
  | cons cur rest ih =>
    intro prev ld ch mv
    simp only [waveLoop]
    rw [ih, signsOf_cons]
    simp only [countRevCode]
    split_ifs <;> omega

/-- The loop's running maxVerticalChange folds the vertical deltas. -/
theorem waveLoop_snd (t : List Sample) : ∀ (prev : Sample) (ld : ℤ) (ch : Nat) (mv : ℚ),
    (waveLoop prev ld ch mv t).2 = (deltas (prev :: t)).foldl (fun m d => max m d.2) mv := by
  induction t with
  | nil =>
    intro prev ld ch mv
    simp [waveLoop, deltas]
  | cons cur rest ih =>
    intro prev ld ch mv
    simp only [waveLoop]
    rw [ih, deltas_cons]
    simp

/-- detectWave's loop computes exactly the adjacent-pair reversal count. -/
theorem waveStats_fst (hist : List Sample) : (waveStats hist).1 = revCountOf hist := by
  cases hist with
  | nil => rfl
  | cons h t =>
    simp [waveStats, waveLoop_fst, countRevCode_cons_zero, revCountOf]

/-- detectWave's loop computes exactly the maximum vertical delta. -/
theorem waveStats_snd (hist : List Sample) : (waveStats hist).2 = maxVerticalOf hist := by
  cases hist with
  | nil => rfl
  | cons h t =>
    simp [waveStats, waveLoop_snd, maxVerticalOf]

end HandTracker

open HandTracker in
/-- Counterexample to C2 as stated: a 12-sample history oscillating with a
one-sample pause at each extreme has 5 reversals under the claim's
last-non-zero-direction counting, horizontal range 0.2 and no vertical
motion, yet outside the cooldown window the recognizer does not fire,
because the code resets its direction tracker on each zero delta and so
counts 0 reversals. -/
theorem claim_C2_counterexample :
    12 ≤ (fifoPush sStall.wristHistory ⟨0.3, 0.5, 5000⟩).length ∧
    gestureThrottle ≤ 5000 - sStall.lastWaveTime ∧
    2 ≤ specRevCountOf (fifoPush sStall.wristHistory ⟨0.3, 0.5, 5000⟩) ∧
    0.12 < xRangeOf (fifoPush sStall.wristHistory ⟨0.3, 0.5, 5000⟩) ∧
    maxVerticalOf (fifoPush sStall.wristHistory ⟨0.3, 0.5, 5000⟩) < 0.12 ∧
    (detectWave (some [stallHand]) 5000 sStall).1 = false := by
  refine ⟨?_, ?_, ?_, ?_, ?_, ?_⟩ <;>
    norm_num [fifoPush, sStall, stallHistory, maxHistoryLength, gestureThrottle,
      specRevCountOf, countRevSpecAux, signsOf, deltas, sgn, xRangeOf, maxVerticalOf,
      detectWave, stallHand, waveStats, waveLoop, abs, max_def, min_def]

open HandTracker in
/-- C2 amended: for a post-append history of at least 12 samples, outside
the cooldown window, the wave recognizer fires exactly when the reversal
count is at least 2 AND the horizontal range exceeds 0.12 AND the maximum
vertical delta stays below 0.12 - where a reversal is counted only when the
new direction and the immediately preceding direction are both non-zero and
differ (a zero delta resets the tracked direction). -/
theorem claim_C2_amended_wave_fire_iff (s : HandTrackerState) (hand : Hand)
    (rest : List Hand) (now : ℤ)
    (hcool : gestureThrottle ≤ now - s.lastWaveTime)
    (hlen : 12 ≤ (fifoPush s.wristHistory ⟨hand.wrist.x, hand.wrist.y, now⟩).length) :
    ((detectWave (some (hand :: rest)) now s).1 = true ↔
      (2 ≤ revCountOf (fifoPush s.wristHistory ⟨hand.wrist.x, hand.wrist.y, now⟩) ∧
        0.12 < xRangeOf (fifoPush s.wristHistory ⟨hand.wrist.x, hand.wrist.y, now⟩) ∧
        maxVerticalOf (fifoPush s.wristHistory ⟨hand.wrist.x, hand.wrist.y, now⟩) < 0.12)) := by
  have hnc : ¬(now - s.lastWaveTime < gestureThrottle) := not_lt.mpr hcool
  have hnl : ¬((fifoPush s.wristHistory ⟨hand.wrist.x, hand.wrist.y, now⟩).length < 12) :=
    not_lt.mpr hlen
  simp only [detectWave, if_neg hnc, if_neg hnl, waveStats_fst, waveStats_snd]
  split_ifs with hf <;> simp [hf]

open HandTracker in
/-- Witness for C2 amended: a 12-sample strictly alternating history fires. -/
theorem claim_C2_witness :
    (detectWave (some [waveHand]) 5000 sReady).1 = true :=
  (claim_C2_amended_wave_fire_iff sReady waveHand [] 5000
      (by norm_num [gestureThrottle, sReady])
      (by norm_num [fifoPush, sReady, altHistory, maxHistoryLength])).mpr
    (by
      refine ⟨?_, ?_, ?_⟩ <;>
        norm_num [revCountOf, countRevCode, signsOf, deltas, sgn, xRangeOf,
          maxVerticalOf, fifoPush, sReady, altHistory, maxHistoryLength, waveHand,
          abs, max_def, min_def])

namespace HandTracker

/-- Within the cooldown window detectWave reports false, whatever the
detector saw. -/
theorem detectWave_cooldown_false {r : Option (List Hand)} {now : ℤ}
    {s : HandTrackerState} (hc : now - s.lastWaveTime < gestureThrottle) :
    (detectWave r now s).1 = false := by
  match r with
  | none => rfl
  | some [] => rfl
  | some (hand :: rest) => simp [detectWave, if_pos hc]

/-- A firing wave records the call timestamp and can only happen outside
the cooldown window. -/
theorem detectWave_fire_time {r : Option (List Hand)} {now : ℤ}
    {s : HandTrackerState} (h : (detectWave r now s).1 = true) :
    (detectWave r now s).2.lastWaveTime = now ∧
      gestureThrottle ≤ now - s.lastWaveTime := by
  match r with
  | none => simp [detectWave] at h
  | some [] => simp [detectWave] at h
  | some (hand :: rest) =>
    simp only [detectWave] at h ⊢
    by_cases h1 : now - s.lastWaveTime < gestureThrottle
    · rw [if_pos h1] at h
      simp at h
    · rw [if_neg h1] at h ⊢
      by_cases h2 : (fifoPush s.wristHistory ⟨hand.wrist.x, hand.wrist.y, now⟩).length < 12
      · rw [if_pos h2] at h
        simp at h
      · rw [if_neg h2] at h ⊢
        by_cases h3 : 2 ≤ (waveStats (fifoPush s.wristHistory
              ⟨hand.wrist.x, hand.wrist.y, now⟩)).1 ∧
            0.12 < xRangeOf (fifoPush s.wristHistory ⟨hand.wrist.x, hand.wrist.y, now⟩) ∧
            (waveStats (fifoPush s.wristHistory ⟨hand.wrist.x, hand.wrist.y, now⟩)).2 < 0.12
        · rw [if_pos h3]
          exact ⟨rfl, by unfold gestureThrottle at h1 ⊢; omega⟩
        · rw [if_neg h3] at h
          simp at h

/-- A non-firing wave call leaves the wave timestamp unchanged. -/
theorem detectWave_nofire_time {r : Option (List Hand)} {now : ℤ}
    {s : HandTrackerState} (h : (detectWave r now s).1 = false) :
    (detectWave r now s).2.lastWaveTime = s.lastWaveTime := by
  match r with
  | none => rfl
  | some [] => rfl
  | some (hand :: rest) =>
    simp only [detectWave] at h ⊢
    by_cases h1 : now - s.lastWaveTime < gestureThrottle
    · rw [if_pos h1]
    · rw [if_neg h1] at h ⊢
      by_cases h2 : (fifoPush s.wristHistory ⟨hand.wrist.x, hand.wrist.y, now⟩).length < 12
      · rw [if_pos h2]
      · rw [if_neg h2] at h ⊢
        by_cases h3 : 2 ≤ (waveStats (fifoPush s.wristHistory
              ⟨hand.wrist.x, hand.wrist.y, now⟩)).1 ∧
            0.12 < xRangeOf (fifoPush s.wristHistory ⟨hand.wrist.x, hand.wrist.y, now⟩) ∧
            (waveStats (fifoPush s.wristHistory ⟨hand.wrist.x, hand.wrist.y, now⟩)).2 < 0.12
        · rw [if_pos h3] at h
          simp at h
        · rw [if_neg h3]

/-- detectWave never touches the thumbs-up timestamp. -/
theorem detectWave_preserves_thumbs {r : Option (List Hand)} {now : ℤ}
    {s : HandTrackerState} :
    (detectWave r now s).2.lastThumbsUpTime = s.lastThumbsUpTime := by
  match r with
  | none => rfl
  | some [] => rfl
  | some (hand :: rest) =>
    simp only [detectWave]
    split_ifs <;> rfl

/-- Within the cooldown window detectThumbsUp reports false. -/
theorem detectThumbsUp_cooldown_false {r : Option (List Hand)} {now : ℤ}
    {s : HandTrackerState} (hc : now - s.lastThumbsUpTime < gestureThrottle) :
    (detectThumbsUp r now s).1 = false := by
  match r with
  | none => rfl
  | some [] => rfl
  | some (hand :: rest) =>
    rw [detectThumbsUp_fst_eq]
    simp [decide_eq_false (not_le.mpr hc)]

/-- A firing thumbs-up records the call timestamp and can only happen
outside the cooldown window. -/
theorem detectThumbsUp_fire_time {r : Option (List Hand)} {now : ℤ}
    {s : HandTrackerState} (h : (detectThumbsUp r now s).1 = true) :
    (detectThumbsUp r now s).2.lastThumbsUpTime = now ∧
      gestureThrottle ≤ now - s.lastThumbsUpTime := by
  match r with
  | none => simp [detectThumbsUp] at h
  | some [] => simp [detectThumbsUp] at h
  | some (hand :: rest) =>
    have hstep : detectThumbsUp (some (hand :: rest)) now s =
        if now - s.lastThumbsUpTime < gestureThrottle then (false, s)
        else if (hand :: rest).any isThumbsUpHand then
          (true, { s with lastThumbsUpTime := now })
        else (false, s) := rfl
    rw [hstep] at h ⊢
    by_cases h1 : now - s.lastThumbsUpTime < gestureThrottle
    · rw [if_pos h1] at h
      simp at h
    · rw [if_neg h1] at h ⊢
      by_cases h2 : (hand :: rest).any isThumbsUpHand = true
      · rw [if_pos h2]
        exact ⟨rfl, by unfold gestureThrottle at h1 ⊢; omega⟩
      · rw [if_neg h2] at h
        simp at h

/-- A non-firing thumbs-up call leaves the thumbs-up timestamp unchanged. -/
theorem detectThumbsUp_nofire_time {r : Option (List Hand)} {now : ℤ}
    {s : HandTrackerState} (h : (detectThumbsUp r now s).1 = false) :
    (detectThumbsUp r now s).2.lastThumbsUpTime = s.lastThumbsUpTime := by
  match r with
  | none => rfl
  | some [] => rfl
  | some (hand :: rest) =>
    have hstep : detectThumbsUp (some (hand :: rest)) now s =
        if now - s.lastThumbsUpTime < gestureThrottle then (false, s)
        else if (hand :: rest).any isThumbsUpHand then
          (true, { s with lastThumbsUpTime := now })
        else (false, s) := rfl
    rw [hstep] at h ⊢
    by_cases h1 : now - s.lastThumbsUpTime < gestureThrottle
    · rw [if_pos h1]
    · rw [if_neg h1] at h ⊢
      by_cases h2 : (hand :: rest).any isThumbsUpHand = true
      · rw [if_pos h2] at h
        simp at h
      · rw [if_neg h2]

/-- detectThumbsUp never touches the wave timestamp. -/
theorem detectThumbsUp_preserves_wave {r : Option (List Hand)} {now : ℤ}
    {s : HandTrackerState} :
    (detectThumbsUp r now s).2.lastWaveTime = s.lastWaveTime := by
  match r with
  | none => rfl
  | some [] => rfl
  | some (hand :: rest) =>
    have hstep : detectThumbsUp (some (hand :: rest)) now s =
        if now - s.lastThumbsUpTime < gestureThrottle then (false, s)
        else if (hand :: rest).any isThumbsUpHand then
          (true, { s with lastThumbsUpTime := now })
        else (false, s) := rfl
    rw [hstep]
    split_ifs <;> rfl

theorem gestureTick_wave_fst (s : HandTrackerState) (r : Option (List Hand)) (now : ℤ) :
    (gestureTick s r now).1.1 = (detectWave r now s).1 := rfl

theorem gestureTick_thumb_fst (s : HandTrackerState) (r : Option (List Hand)) (now : ℤ) :
    (gestureTick s r now).1.2 = (detectThumbsUp r now (detectWave r now s).2).1 := rfl

/-- A tick whose wave fired records the tick timestamp as lastWaveTime. -/
theorem tick_wave_time_of_fire {s : HandTrackerState} {r : Option (List Hand)} {now : ℤ}
    (h : (gestureTick s r now).1.1 = true) :
    (gestureTick s r now).2.lastWaveTime = now := by
  rw [gestureTick_wave_fst] at h
  have h1 := (detectWave_fire_time h).1
  show (detectThumbsUp r now (detectWave r now s).2).2.lastWaveTime = now
  rw [detectThumbsUp_preserves_wave, h1]

/-- A tick whose wave fired was outside the wave cooldown window. -/
theorem tick_wave_fire_needs {s : HandTrackerState} {r : Option (List Hand)} {now : ℤ}
    (h : (gestureTick s r now).1.1 = true) :
    gestureThrottle ≤ now - s.lastWaveTime := by
  rw [gestureTick_wave_fst] at h
  exact (detectWave_fire_time h).2

/-- A tick whose wave did not fire keeps lastWaveTime. -/
theorem tick_wave_time_of_nofire {s : HandTrackerState} {r : Option (List Hand)} {now : ℤ}
    (h : (gestureTick s r now).1.1 = false) :
    (gestureTick s r now).2.lastWaveTime = s.lastWaveTime := by
  rw [gestureTick_wave_fst] at h
  show (detectThumbsUp r now (detectWave r now s).2).2.lastWaveTime = s.lastWaveTime
  rw [detectThumbsUp_preserves_wave, detectWave_nofire_time h]

/-- A tick whose thumbs-up fired records the tick timestamp. -/
theorem tick_thumb_time_of_fire {s : HandTrackerState} {r : Option (List Hand)} {now : ℤ}
    (h : (gestureTick s r now).1.2 = true) :
    (gestureTick s r now).2.lastThumbsUpTime = now := by
  rw [gestureTick_thumb_fst] at h
  exact (detectThumbsUp_fire_time h).1

/-- A tick whose thumbs-up fired was outside the thumbs-up cooldown window. -/
theorem tick_thumb_fire_needs {s : HandTrackerState} {r : Option (List Hand)} {now : ℤ}
    (h : (gestureTick s r now).1.2 = true) :
    gestureThrottle ≤ now - s.lastThumbsUpTime := by
  rw [gestureTick_thumb_fst] at h
  have := (detectThumbsUp_fire_time h).2
  rwa [detectWave_preserves_thumbs] at this

/-- A tick whose thumbs-up did not fire keeps lastThumbsUpTime. -/
theorem tick_thumb_time_of_nofire {s : HandTrackerState} {r : Option (List Hand)} {now : ℤ}
    (h : (gestureTick s r now).1.2 = false) :
    (gestureTick s r now).2.lastThumbsUpTime = s.lastThumbsUpTime := by
  rw [gestureTick_thumb_fst] at h
  show (detectThumbsUp r now (detectWave r now s).2).2.lastThumbsUpTime = s.lastThumbsUpTime
  rw [detectThumbsUp_nofire_time h, detectWave_preserves_thumbs]

theorem runGestures_cons (s : HandTrackerState) (c : Option (List Hand) × ℤ)
    (rest : List (Option (List Hand) × ℤ)) :
    runGestures s (c :: rest) =
      ((gestureTick s c.1 c.2).1 :: (runGestures (gestureTick s c.1 c.2).2 rest).1,
        (runGestures (gestureTick s c.1 c.2).2 rest).2) := rfl

/-- While every remaining call time stays short of t plus the cooldown,
no wave fires, provided lastWaveTime is t or already past t plus the
cooldown. -/
theorem runGestures_wave_quiet (calls : List (Option (List Hand) × ℤ)) :
    ∀ (s : HandTrackerState) (t : ℤ),
      (s.lastWaveTime = t ∨ t + gestureThrottle ≤ s.lastWaveTime) →
      ∀ j, j < calls.length → (calls.getD j (none, 0)).2 < t + gestureThrottle →
        ((runGestures s calls).1.getD j (false, false)).1 = false := by
  induction calls with
  | nil =>
    intro s t _ j hj _
    simp at hj
  | cons c rest ih =>
    intro s t hinv j hj htime
    have hinv2 : (gestureTick s c.1 c.2).2.lastWaveTime = t ∨
        t + gestureThrottle ≤ (gestureTick s c.1 c.2).2.lastWaveTime := by
      by_cases hf : (gestureTick s c.1 c.2).1.1 = true
      · right
        rw [tick_wave_time_of_fire hf]
        have h2 := tick_wave_fire_needs hf
        rcases hinv with h | h <;> (unfold gestureThrottle at *; omega)
      · rw [tick_wave_time_of_nofire (Bool.eq_false_iff.mpr hf)]
        exact hinv
    cases j with
    | zero =>
      rw [runGestures_cons]
      simp only [List.getD_cons_zero]
      rw [gestureTick_wave_fst]
      apply detectWave_cooldown_false
      simp only [List.getD_cons_zero] at htime
      rcases hinv with h | h <;> (unfold gestureThrottle at *; omega)
    | succ j' =>
      rw [runGestures_cons]
      simp only [List.getD_cons_succ]
      apply ih (gestureTick s c.1 c.2).2 t hinv2 j'
      · simp only [List.length_cons] at hj; omega
      · simpa only [List.getD_cons_succ] using htime

/-- While every remaining call time stays short of t plus the cooldown,
no thumbs-up fires, provided lastThumbsUpTime is t or already past t plus
the cooldown. -/
theorem runGestures_thumb_quiet (calls : List (Option (List Hand) × ℤ)) :
    ∀ (s : HandTrackerState) (t : ℤ),
      (s.lastThumbsUpTime = t ∨ t + gestureThrottle ≤ s.lastThumbsUpTime) →
      ∀ j, j < calls.length → (calls.getD j (none, 0)).2 < t + gestureThrottle →
        ((runGestures s calls).1.getD j (false, false)).2 = false := by
  induction calls with
  | nil =>
    intro s t _ j hj _
    simp at hj
  | cons c rest ih =>
    intro s t hinv j hj htime
    have hinv2 : (gestureTick s c.1 c.2).2.lastThumbsUpTime = t ∨
        t + gestureThrottle ≤ (gestureTick s c.1 c.2).2.lastThumbsUpTime := by
      by_cases hf : (gestureTick s c.1 c.2).1.2 = true
      · right
        rw [tick_thumb_time_of_fire hf]
        have h2 := tick_thumb_fire_needs hf
        rcases hinv with h | h <;> (unfold gestureThrottle at *; omega)
      · rw [tick_thumb_time_of_nofire (Bool.eq_false_iff.mpr hf)]
        exact hinv
    cases j with
    | zero =>
      rw [runGestures_cons]
      simp only [List.getD_cons_zero]
      rw [gestureTick_thumb_fst]
      apply detectThumbsUp_cooldown_false
      rw [detectWave_preserves_thumbs]
      simp only [List.getD_cons_zero] at htime
      rcases hinv with h | h <;> (unfold gestureThrottle at *; omega)
    | succ j' =>
      rw [runGestures_cons]
      simp only [List.getD_cons_succ]
      apply ih (gestureTick s c.1 c.2).2 t hinv2 j'
      · simp only [List.length_cons] at hj; omega
      · simpa only [List.getD_cons_succ] using htime

/-- Once the wave fires at call i, no later call whose time is within the
cooldown window of call i's time can fire a wave. -/
theorem runGestures_wave_trace (calls : List (Option (List Hand) × ℤ)) :
    ∀ (s : HandTrackerState) (i j : Nat), i < j → j < calls.length →
      ((runGestures s calls).1.getD i (false, false)).1 = true →
      (calls.getD j (none, 0)).2 < (calls.getD i (none, 0)).2 + gestureThrottle →
      ((runGestures s calls).1.getD j (false, false)).1 = false := by
  induction calls with
  | nil =>
    intro s i j _ hj _ _
    simp at hj
  | cons c rest ih =>
    intro s i j hij hj hfire htime
    obtain ⟨j', rfl⟩ : ∃ j', j = j' + 1 := ⟨j - 1, by omega⟩
    cases i with
    | zero =>
      have hfire0 : (gestureTick s c.1 c.2).1.1 = true := by
        rw [runGestures_cons] at hfire
        simpa only [List.getD_cons_zero] using hfire
      have hwt := tick_wave_time_of_fire hfire0
      rw [runGestures_cons]
      simp only [List.getD_cons_succ]
      apply runGestures_wave_quiet rest (gestureTick s c.1 c.2).2 c.2 (Or.inl hwt) j'
      · simp only [List.length_cons] at hj; omega
      · simpa only [List.getD_cons_succ, List.getD_cons_zero] using htime
    | succ i' =>
      rw [runGestures_cons]
      simp only [List.getD_cons_succ]
      apply ih (gestureTick s c.1 c.2).2 i' j' (by omega)
      · simp only [List.length_cons] at hj; omega
      · rw [runGestures_cons] at hfire
        simpa only [List.getD_cons_succ] using hfire
      · simpa only [List.getD_cons_succ] using htime

/-- Once the thumbs-up fires at call i, no later call whose time is within
the cooldown window of call i's time can fire a thumbs-up. -/
theorem runGestures_thumb_trace (calls : List (Option (List Hand) × ℤ)) :
    ∀ (s : HandTrackerState) (i j : Nat), i < j → j < calls.length →
      ((runGestures s calls).1.getD i (false, false)).2 = true →
      (calls.getD j (none, 0)).2 < (calls.getD i (none, 0)).2 + gestureThrottle →
      ((runGestures s calls).1.getD j (false, false)).2 = false := by
  induction calls with
  | nil =>
    intro s i j _ hj _ _
    simp at hj
  | cons c rest ih =>
    intro s i j hij hj hfire htime
    obtain ⟨j', rfl⟩ : ∃ j', j = j' + 1 := ⟨j - 1, by omega⟩
    cases i with
    | zero =>
      have hfire0 : (gestureTick s c.1 c.2).1.2 = true := by
        rw [runGestures_cons] at hfire
        simpa only [List.getD_cons_zero] using hfire
      have hwt := tick_thumb_time_of_fire hfire0
      rw [runGestures_cons]
      simp only [List.getD_cons_succ]
      apply runGestures_thumb_quiet rest (gestureTick s c.1 c.2).2 c.2 (Or.inl hwt) j'
      · simp only [List.length_cons] at hj; omega
      · simpa only [List.getD_cons_succ, List.getD_cons_zero] using htime
    | succ i' =>
      rw [runGestures_cons]
      simp only [List.getD_cons_succ]
      apply ih (gestureTick s c.1 c.2).2 i' j' (by omega)
      · simp only [List.length_cons] at hj; omega
      · rw [runGestures_cons] at hfire
        simpa only [List.getD_cons_succ] using hfire
      · simpa only [List.getD_cons_succ] using htime

end HandTracker

open HandTracker in
/-- C3: over any sequence of gesture ticks from any tracker state, once a
gesture of either kind fires at call i, no call j after it whose timestamp
is within 2000 ms of call i's timestamp fires a gesture of the same kind,
regardless of the detector input at those calls. -/
theorem claim_C3_gesture_cooldown (s : HandTrackerState)
    (calls : List (Option (List Hand) × ℤ)) (i j : Nat)
    (hij : i < j) (hj : j < calls.length) :
    (((runGestures s calls).1.getD i (false, false)).1 = true →
      (calls.getD j (none, 0)).2 < (calls.getD i (none, 0)).2 + gestureThrottle →
      ((runGestures s calls).1.getD j (false, false)).1 = false) ∧
    (((runGestures s calls).1.getD i (false, false)).2 = true →
      (calls.getD j (none, 0)).2 < (calls.getD i (none, 0)).2 + gestureThrottle →
      ((runGestures s calls).1.getD j (false, false)).2 = false) :=
  ⟨fun hf ht => runGestures_wave_trace calls s i j hij hj hf ht,
   fun hf ht => runGestures_thumb_trace calls s i j hij hj hf ht⟩

open HandTracker in
/-- Witness for C3: in the two-tick demo run the wave fires at tick 0
(time 5000) and is suppressed at tick 1 (time 6000). -/
theorem claim_C3_witness :
    ((runGestures sReady demoCalls).1.getD 1 (false, false)).1 = false :=
  (claim_C3_gesture_cooldown sReady demoCalls 0 1 (by norm_num)
      (by norm_num [demoCalls])).1
    (by
      norm_num [runGestures, demoCalls, gestureTick, detectWave, detectThumbsUp,
        isThumbsUpHand, thumbExtended, fingersCurled, sReady, waveHand, altHistory,
        fifoPush, maxHistoryLength, gestureThrottle, waveStats, waveLoop, sgn,
        xRangeOf, abs, max_def, min_def])
    (by norm_num [demoCalls, gestureThrottle])

namespace AvatarController

/-- With the head bone present, a face update on a present array reduces to
the outcome of gathering the required landmarks. -/
theorem updateFromFaceData_some_some (u : Unit) (lm : List Point)
    (c : AvatarController) (hb : c.headBone = some u) :
    updateFromFaceData (some lm) c =
      (match readFacePoints lm with
        | none => Except.error c
        | some p => Except.ok (applyFaceGeometry p c)) := by
  unfold updateFromFaceData
  rw [hb]

/-- A landmark array shorter than 387 entries is missing at least one
required index, so gathering the face points fails (the JS code throws). -/
theorem readFacePoints_none_of_short (lm : List Point) (h : lm.length < 387) :
    readFacePoints lm = none := by
  have h386 : lm[386]? = none := List.getElem?_eq_none (by omega)
  unfold readFacePoints
  cases e1 : lm[1]? with
  | none => rfl
  | some p1 =>
    cases e2 : lm[33]? with
    | none => rfl
    | some p2 =>
      cases e3 : lm[263]? with
      | none => rfl
      | some p3 =>
        cases e4 : lm[159]? with
        | none => rfl
        | some p4 =>
          cases e5 : lm[145]? with
          | none => rfl
          | some p5 =>
            cases e6 : lm[133]? with
            | none => rfl
            | some p6 =>
              cases e7 : lm[158]? with
              | none => rfl
              | some p7 =>
                cases e8 : lm[153]? with
                | none => rfl
                | some p8 =>
                  rw [h386]

/-- An array with at least 387 entries supplies every required index, so
gathering the face points succeeds. -/
theorem readFacePoints_some_of_long (lm : List Point) (h : 387 ≤ lm.length) :
    ∃ p, readFacePoints lm = some p := by
  have e1 := List.getElem?_eq_getElem (l := lm) (n := 1) (by omega)
  have e2 := List.getElem?_eq_getElem (l := lm) (n := 33) (by omega)
  have e3 := List.getElem?_eq_getElem (l := lm) (n := 263) (by omega)
  have e4 := List.getElem?_eq_getElem (l := lm) (n := 159) (by omega)
  have e5 := List.getElem?_eq_getElem (l := lm) (n := 145) (by omega)
  have e6 := List.getElem?_eq_getElem (l := lm) (n := 133) (by omega)
  have e7 := List.getElem?_eq_getElem (l := lm) (n := 158) (by omega)
  have e8 := List.getElem?_eq_getElem (l := lm) (n := 153) (by omega)
  have e9 := List.getElem?_eq_getElem (l := lm) (n := 386) (by omega)
  have e10 := List.getElem?_eq_getElem (l := lm) (n := 374) (by omega)
  have e11 := List.getElem?_eq_getElem (l := lm) (n := 362) (by omega)
  have e12 := List.getElem?_eq_getElem (l := lm) (n := 385) (by omega)
  have e13 := List.getElem?_eq_getElem (l := lm) (n := 380) (by omega)
  have e14 := List.getElem?_eq_getElem (l := lm) (n := 13) (by omega)
  have e15 := List.getElem?_eq_getElem (l := lm) (n := 14) (by omega)
  have e16 := List.getElem?_eq_getElem (l := lm) (n := 61) (by omega)
  have e17 := List.getElem?_eq_getElem (l := lm) (n := 291) (by omega)
  have e18 := List.getElem?_eq_getElem (l := lm) (n := 70) (by omega)
  have e19 := List.getElem?_eq_getElem (l := lm) (n := 300) (by omega)
  unfold readFacePoints
  rw [e1, e2, e3, e4, e5, e6, e7, e8, e9, e10, e11, e12, e13, e14, e15, e16,
    e17, e18, e19]
  exact ⟨_, rfl⟩

end AvatarController

open AvatarController in
/-- Counterexample to C7 as stated: a truncated landmark array (100 entries,
missing several required indices) makes the update throw - the call returns
the error outcome - instead of performing a defensive per-signal no-op or
signalling no data. -/
theorem claim_C7_counterexample :
    updateFromFaceData (some shortFace) ctrlWithBone = .error ctrlWithBone ∧
    shortFace.length < 387 := by
  constructor
  · norm_num [updateFromFaceData, ctrlWithBone, AvatarController.mk0, shortFace,
      readFacePoints, List.getElem?_replicate]
  · norm_num [shortFace]

open AvatarController in
/-- C7 amended: the only defensive guard is for a wholly absent landmark
array (a complete no-op).  With a head bone present, a non-null array
shorter than 387 entries is missing a required landmark index and the update
throws (error outcome, no per-signal no-op), while an array of at least 387
entries always succeeds. -/
theorem claim_C7_amended_missing_landmark_throws (c : AvatarController)
    (lm : List Point) (hb : c.headBone = some ()) :
    (updateFromFaceData none c = .ok c) ∧
    (lm.length < 387 → updateFromFaceData (some lm) c = .error c) ∧
    (387 ≤ lm.length → ∃ d, updateFromFaceData (some lm) c = .ok d) := by
  refine ⟨?_, ?_, ?_⟩
  · unfold updateFromFaceData
    rw [hb]
  · intro hlen
    rw [updateFromFaceData_some_some () lm c hb,
      readFacePoints_none_of_short lm hlen]
  · intro hlen
    obtain ⟨p, hp⟩ := readFacePoints_some_of_long lm hlen
    refine ⟨applyFaceGeometry p c, ?_⟩
    rw [updateFromFaceData_some_some () lm c hb, hp]

open AvatarController in
/-- Witness for C7 amended: the no-op on an absent array and the successful
update on a 400-entry array, for a controller holding a head bone. -/
theorem claim_C7_witness :
    updateFromFaceData none ctrlWithBone = .ok ctrlWithBone ∧
    ∃ d, updateFromFaceData (some fullFace) ctrlWithBone = .ok d :=
  ⟨(claim_C7_amended_missing_landmark_throws ctrlWithBone fullFace rfl).1,
   (claim_C7_amended_missing_landmark_throws ctrlWithBone fullFace rfl).2.2
     (by norm_num [fullFace])⟩

namespace AvatarController

/-- The EAR-to-openness map always lands in the unit interval. -/
theorem eyeOpenness_mem (ear : ℚ) : 0 ≤ eyeOpenness ear ∧ eyeOpenness ear ≤ 1 := by
  unfold eyeOpenness
  split_ifs with h1 h2
  · norm_num
  · norm_num
  · constructor
    · exact div_nonneg (by linarith) (by norm_num)
    · rw [div_le_one (by norm_num : (0:ℚ) < 0.05)]
      linarith

/-- A lerp between unit-interval values with a unit-interval factor stays in
the unit interval. -/
theorem lerp_mem_unit {a b t : ℚ} (ha0 : 0 ≤ a) (ha1 : a ≤ 1) (hb0 : 0 ≤ b)
    (hb1 : b ≤ 1) (ht0 : 0 ≤ t) (ht1 : t ≤ 1) :
    0 ≤ lerp a b t ∧ lerp a b t ≤ 1 := by
  unfold lerp
  constructor
  · nlinarith [mul_nonneg (by linarith : (0:ℚ) ≤ 1 - t) ha0, mul_nonneg ht0 hb0]
  · nlinarith [mul_nonneg (by linarith : (0:ℚ) ≤ 1 - t) (by linarith : (0:ℚ) ≤ 1 - a),
      mul_nonneg ht0 (by linarith : (0:ℚ) ≤ 1 - b)]

/-- The clamp Math.max(0, Math.min(1, x)) lands in the unit interval. -/
theorem clamp01_mem (x : ℚ) : 0 ≤ max 0 (min 1 x) ∧ max 0 (min 1 x) ≤ 1 :=
  ⟨le_max_left _ _, max_le (by norm_num) (min_le_left _ _)⟩

/-- The mouth-open value Math.min(height * 15, 1) lands in the unit interval
for a non-negative height. -/
theorem mouthOpen_mem (h : ℚ) (hh : 0 ≤ h) :
    0 ≤ min (h * 15) 1 ∧ min (h * 15) 1 ≤ 1 :=
  ⟨le_min (by nlinarith) (by norm_num), min_le_right _ _⟩

/-- JS subtraction 1 - x keeps a unit-interval number in the unit
interval. -/
theorem oneMinus_memUnit {x : JsNum} (h : JsNum.memUnit x) :
    JsNum.memUnit (JsNum.oneMinus x) := by
  cases x with
  | num q =>
    simp only [JsNum.memUnit, JsNum.oneMinus] at h ⊢
    exact ⟨by linarith [h.2], by linarith [h.1]⟩
  | nan => simp only [JsNum.memUnit] at h

/-- The openness of any non-NaN EAR value lies in the unit interval. -/
theorem eyeOpennessJs_memUnit {e : EARVal} (h : e ≠ EARVal.nan) :
    JsNum.memUnit (eyeOpennessJs e) := by
  cases e with
  | fin q => simpa only [eyeOpennessJs, JsNum.memUnit] using eyeOpenness_mem q
  | posInf => norm_num [eyeOpennessJs, JsNum.memUnit]
  | nan => exact absurd rfl h

/-- A JS lerp between unit-interval numbers with a unit-interval factor
stays in the unit interval (in particular it is not NaN). -/
theorem lerpJs_memUnit {a b : JsNum} {t : ℚ} (ha : JsNum.memUnit a)
    (hb : JsNum.memUnit b) (ht0 : 0 ≤ t) (ht1 : t ≤ 1) :
    JsNum.memUnit (lerpJs a b t) := by
  cases a with
  | nan => simp only [JsNum.memUnit] at ha
  | num qa =>
    cases b with
    | nan => simp only [JsNum.memUnit] at hb
    | num qb =>
      simp only [JsNum.memUnit, lerpJs] at ha hb ⊢
      exact lerp_mem_unit ha.1 ha.2 hb.1 hb.2 ht0 ht1

theorem applyFaceGeometry_blinkL (p : FacePoints) (c : AvatarController) :
    (applyFaceGeometry p c).smoothedBlinkLeft =
      lerpJs c.smoothedBlinkLeft (eyeOpennessJs (calculateEAR (leftEyeSet p)))
        0.3 := rfl

theorem applyFaceGeometry_blinkR (p : FacePoints) (c : AvatarController) :
    (applyFaceGeometry p c).smoothedBlinkRight =
      lerpJs c.smoothedBlinkRight (eyeOpennessJs (calculateEAR (rightEyeSet p)))
        0.3 := rfl

theorem applyFaceGeometry_mouth (p : FacePoints) (c : AvatarController) :
    (applyFaceGeometry p c).smoothedMouth =
      lerp c.smoothedMouth (min (mouthHeightOf p.mouthTop p.mouthBottom * 15) 1)
        0.25 := rfl

theorem applyFaceGeometry_smile (p : FacePoints) (c : AvatarController) :
    (applyFaceGeometry p c).smoothedSmile =
      lerp c.smoothedSmile
        (smilingOf (smileRatioOf |p.mouthRight.x - p.mouthLeft.x|
          (mouthHeightOf p.mouthTop p.mouthBottom)))
        0.2 := rfl

theorem applyFaceGeometry_brow (p : FacePoints) (c : AvatarController) :
    (applyFaceGeometry p c).smoothedBrowRaise =
      lerp c.smoothedBrowRaise
        (max 0 (min 1 ((((p.leftEye.y - p.leftBrow.y) + (p.rightEye.y - p.rightBrow.y)) / 2
          - 0.04) * 10)))
        0.2 := rfl

/-- When neither eye hits the 0 / 0 EAR case, the geometry-plus-smoothing
step keeps every smoothed scalar in the unit interval. -/
theorem applyFaceGeometry_smoothed (p : FacePoints) (c : AvatarController)
    (hwf : earWellFormed p) (hc : smoothedInUnit c) :
    smoothedInUnit (applyFaceGeometry p c) := by
  obtain ⟨hBL, hBR, hM, hS, hBrow⟩ := hc
  have hEL := eyeOpennessJs_memUnit hwf.1
  have hER := eyeOpennessJs_memUnit hwf.2
  have hMo := mouthOpen_mem (mouthHeightOf p.mouthTop p.mouthBottom) (abs_nonneg _)
  have hSm := smilingOf_mem (smileRatioOf |p.mouthRight.x - p.mouthLeft.x|
    (mouthHeightOf p.mouthTop p.mouthBottom))
  have hBr := clamp01_mem ((((p.leftEye.y - p.leftBrow.y) +
    (p.rightEye.y - p.rightBrow.y)) / 2 - 0.04) * 10)
  refine ⟨?_, ?_, ?_, ?_, ?_⟩
  · rw [applyFaceGeometry_blinkL]
    exact lerpJs_memUnit hBL hEL (by norm_num) (by norm_num)
  · rw [applyFaceGeometry_blinkR]
    exact lerpJs_memUnit hBR hER (by norm_num) (by norm_num)
  · rw [applyFaceGeometry_mouth]
    exact lerp_mem_unit hM.1 hM.2 hMo.1 hMo.2 (by norm_num) (by norm_num)
  · rw [applyFaceGeometry_smile]
    exact lerp_mem_unit hS.1 hS.2 hSm.1 hSm.2 (by norm_num) (by norm_num)
  · rw [applyFaceGeometry_brow]
    exact lerp_mem_unit hBrow.1 hBrow.2 hBr.1 hBr.2 (by norm_num) (by norm_num)

/-- A face update either leaves the state unchanged (no-op or throw) or
applies the geometry step to the successfully gathered landmarks. -/
theorem updateFromFaceData_cases (lm? : Option (List Point)) (c : AvatarController) :
    updateFromFaceData lm? c = .ok c ∨ updateFromFaceData lm? c = .error c ∨
      ∃ lm p, lm? = some lm ∧ readFacePoints lm = some p ∧
        updateFromFaceData lm? c = .ok (applyFaceGeometry p c) := by
  cases hcb : c.headBone with
  | none =>
    left
    unfold updateFromFaceData
    rw [hcb]
  | some u =>
    cases lm? with
    | none =>
      left
      unfold updateFromFaceData
      rw [hcb]
    | some lm =>
      cases hr : readFacePoints lm with
      | none =>
        refine Or.inr (Or.inl ?_)
        rw [updateFromFaceData_some_some u lm c hcb, hr]
      | some p =>
        refine Or.inr (Or.inr ⟨lm, p, rfl, hr, ?_⟩)
        rw [updateFromFaceData_some_some u lm c hcb, hr]

/-- One EAR-safe face-update call preserves the unit-interval invariant. -/
theorem faceStep_smoothed (c : AvatarController) (lm? : Option (List Point))
    (hsafe : inputEarSafe lm?) (hc : smoothedInUnit c) :
    smoothedInUnit (faceStep c lm?) := by
  unfold faceStep
  rcases updateFromFaceData_cases lm? c with h | h | ⟨lm, p, hlm, hr, h⟩ <;> rw [h]
  · exact hc
  · exact hc
  · refine applyFaceGeometry_smoothed p c ?_ hc
    subst hlm
    simp only [inputEarSafe, hr] at hsafe
    exact hsafe

/-- Any sequence of EAR-safe face-update calls preserves the unit-interval
invariant. -/
theorem runFaceUpdates_smoothed (inputs : List (Option (List Point))) :
    ∀ c : AvatarController, (∀ i ∈ inputs, inputEarSafe i) → smoothedInUnit c →
      smoothedInUnit (runFaceUpdates c inputs) := by
  induction inputs with
  | nil => intro c _ hc; exact hc
  | cons a t ih =>
    intro c hsafe hc
    exact ih _ (fun i hi => hsafe i (List.mem_cons_of_mem a hi))
      (faceStep_smoothed c a (hsafe a (List.mem_cons_self a t)) hc)

end AvatarController

open AvatarController in
/-- Counterexample to C9 as stated: a full landmark array whose points all
coincide drives calculateEAR to 0 / 0, which is NaN in JS; the NaN passes
through the openness ternary and the lerp, so after a single update the
smoothed left-blink value is NaN and the unit-interval invariant fails,
although the initial state satisfies it. -/
theorem claim_C9_counterexample :
    smoothedInUnit ctrlWithBone ∧
    (runFaceUpdates ctrlWithBone [some fullFace]).smoothedBlinkLeft = JsNum.nan ∧
    ¬ smoothedInUnit (runFaceUpdates ctrlWithBone [some fullFace]) := by
  have hnan : (runFaceUpdates ctrlWithBone [some fullFace]).smoothedBlinkLeft
      = JsNum.nan := by
    norm_num [runFaceUpdates, faceStep, updateFromFaceData, ctrlWithBone,
      AvatarController.mk0, fullFace, readFacePoints, List.getElem?_replicate,
      applyFaceGeometry, leftEyeSet, rightEyeSet, calculateEAR, eyeOpennessJs,
      lerpJs, eyeOpenness, mouthHeightOf, smileRatioOf, smilingOf, lerp,
      abs, max_def, min_def]
  refine ⟨?_, hnan, ?_⟩
  · norm_num [smoothedInUnit, ctrlWithBone, AvatarController.mk0, JsNum.memUnit]
  · intro hcontra
    have h1 := hcontra.1
    rw [hnan] at h1
    simp only [JsNum.memUnit] at h1

open AvatarController in
/-- C9 amended: starting from smoothed expression values in the unit
interval (as at construction), after any sequence of face-update calls with
arbitrary landmark inputs none of which drives an eye-aspect-ratio
computation to 0 / 0 (the NaN case), every smoothed value remains in the
unit interval and each of the five scalars the morph block writes
(1 - blink left, 1 - blink right, mouth, smile * 0.5, brow * 0.6) lies in
the unit interval. -/
theorem claim_C9_amended_unit_interval_invariant (c : AvatarController)
    (inputs : List (Option (List Point)))
    (hsafe : ∀ i ∈ inputs, inputEarSafe i) (hc : smoothedInUnit c) :
    smoothedInUnit (runFaceUpdates c inputs) ∧
    ∀ v ∈ morphWriteValues (runFaceUpdates c inputs), JsNum.memUnit v := by
  have hf := runFaceUpdates_smoothed inputs c hsafe hc
  refine ⟨hf, ?_⟩
  obtain ⟨hBL, hBR, ⟨h5, h6⟩, ⟨h7, h8⟩, h9, h10⟩ := hf
  intro v hv
  simp only [morphWriteValues, List.mem_cons, List.not_mem_nil, or_false] at hv
  rcases hv with rfl | rfl | rfl | rfl | rfl
  · exact oneMinus_memUnit hBL
  · exact oneMinus_memUnit hBR
  · simp only [JsNum.memUnit]
    exact ⟨h5, h6⟩
  · simp only [JsNum.memUnit]
    constructor <;> nlinarith
  · simp only [JsNum.memUnit]
    constructor <;> nlinarith

open AvatarController in
/-- Witness for C9 amended: one update call with an absent detection, from
the constructor state with a head bone and no morph meshes. -/
theorem claim_C9_witness :
    smoothedInUnit (runFaceUpdates ctrlWithBone [none]) ∧
    ∀ v ∈ morphWriteValues (runFaceUpdates ctrlWithBone [none]), JsNum.memUnit v :=
  claim_C9_amended_unit_interval_invariant ctrlWithBone [none]
    (by simp [inputEarSafe])
    (by norm_num [smoothedInUnit, ctrlWithBone, AvatarController.mk0, JsNum.memUnit])
